import Mathlib

/-!
Verification of the Wisconsin DOR chat orchestration backend: a shallow
embedding of the message protocol (packages/messages/types/message-types.ts),
the client WebSocket hooks (packages/webapp/src/hooks), the client chat store
(packages/webapp/src/stores/chat-store.ts) and the Step Functions chat state
machine (the MessagesStack definition), together with theorems about them.
-/

namespace WisconsinDor

/-- JSON values as produced by JSON.parse on a wire payload: null, booleans,
numbers, strings, arrays and objects (an object is a list of key/value
fields). -/
inductive Json where
  | null : Json
  | bool (b : Bool) : Json
  | num (n : Int) : Json
  | str (s : String) : Json
  | arr (elems : List Json) : Json
  | obj (fields : List (String × Json)) : Json

/-- First-match field lookup in a field list, as JavaScript property access. -/
def lookupField : List (String × Json) → String → Option Json
  | [], _ => none
  | (k, v) :: rest, key => if k = key then some v else lookupField rest key

/-- Property access on a parsed JSON value: only objects have fields. -/
def Json.getField : Json → String → Option Json
  | .obj fields, key => lookupField fields key
  | _, _ => none

/-- A zod z.string() check: succeeds exactly on JSON strings. -/
def Json.asString : Json → Option String
  | .str s => some s
  | _ => none

/-- A zod z.array(...) shape check: succeeds exactly on JSON arrays. -/
def Json.asArray : Json → Option (List Json)
  | .arr elems => some elems
  | _ => none

/-- SourceDocument from message-types.ts: documentId, title, content, with an
optional source field. -/
structure SourceDocument where
  documentId : String
  title : String
  content : String
  source : Option String
deriving DecidableEq

/-- The two values of the answer-event event field: z.enum of start and stop. -/
inductive AnswerEventKind where
  | start
  | stop
deriving DecidableEq

/-- MessageUnion from message-types.ts: the closed discriminated union over
responseType, with one constructor per variant schema (documents, faq, error,
fragment, answer-event). The error variant carries no queryId. -/
inductive MessageUnion where
  | documentsMsg (queryId : String) (documents : List SourceDocument)
  | faqMsg (queryId : String) (question : String) (answer : String)
  | errorMsg (message : String)
  | fragmentMsg (queryId : String) (fragment : String)
  | answerEventMsg (queryId : String) (event : AnswerEventKind)
deriving DecidableEq

/-- WebSocketMessage from message-types.ts: the wire envelope of a streamId
(one of four literals) and a MessageUnion body. -/
structure WebSocketMessage where
  streamId : String
  body : MessageUnion
deriving DecidableEq

/-- SourceDocumentSchema.parse: requires documentId, title and content to be
strings; source, when the key is present, must be a string, and may be
absent. -/
def SourceDocumentSchema (j : Json) : Option SourceDocument := do
  let documentId ← (j.getField "documentId").bind Json.asString
  let title ← (j.getField "title").bind Json.asString
  let content ← (j.getField "content").bind Json.asString
  let source ← match j.getField "source" with
    | none => some none
    | some v => (v.asString).map some
  pure { documentId := documentId, title := title, content := content, source := source }

/-- Element-wise parse of a JSON array, as z.array(SourceDocumentSchema):
every element must parse, in order. -/
def parseDocumentList : List Json → Option (List SourceDocument)
  | [] => some []
  | j :: rest => do
      let d ← SourceDocumentSchema j
      let ds ← parseDocumentList rest
      pure (d :: ds)

/-- DocumentsContentSchema.parse: an object whose documents field is an array
of SourceDocument values. -/
def DocumentsContentSchema (j : Json) : Option (List SourceDocument) := do
  let docsJson ← (j.getField "documents").bind Json.asArray
  parseDocumentList docsJson

/-- DocumentsMessageSchema.parse: responseType is the literal documents, with
a string queryId and a DocumentsContent content. -/
def DocumentsMessageSchema (j : Json) : Option MessageUnion := do
  let rt ← (j.getField "responseType").bind Json.asString
  if rt = "documents" then
    let queryId ← (j.getField "queryId").bind Json.asString
    let contentJson ← j.getField "content"
    let documents ← DocumentsContentSchema contentJson
    pure (.documentsMsg queryId documents)
  else none

/-- FAQSchema.parse: an object with string question and answer fields. -/
def FAQSchema (j : Json) : Option (String × String) := do
  let question ← (j.getField "question").bind Json.asString
  let answer ← (j.getField "answer").bind Json.asString
  pure (question, answer)

/-- FAQContentSchema.parse: an object whose faq field is an FAQ pair. -/
def FAQContentSchema (j : Json) : Option (String × String) := do
  let faqJson ← j.getField "faq"
  FAQSchema faqJson

/-- FAQMessageSchema.parse: responseType is the literal faq, with a string
queryId and an FAQContent content. -/
def FAQMessageSchema (j : Json) : Option MessageUnion := do
  let rt ← (j.getField "responseType").bind Json.asString
  if rt = "faq" then
    let queryId ← (j.getField "queryId").bind Json.asString
    let contentJson ← j.getField "content"
    let faqPair ← FAQContentSchema contentJson
    pure (.faqMsg queryId faqPair.1 faqPair.2)
  else none

/-- ErrorMessageSchema.parse: responseType is the literal error, and content
is an object with a string message field; there is no queryId field. -/
def ErrorMessageSchema (j : Json) : Option MessageUnion := do
  let rt ← (j.getField "responseType").bind Json.asString
  if rt = "error" then
    let contentJson ← j.getField "content"
    let message ← (contentJson.getField "message").bind Json.asString
    pure (.errorMsg message)
  else none

/-- FragmentMessageSchema.parse: responseType is the literal fragment, with a
string queryId and a content object holding a string fragment field. -/
def FragmentMessageSchema (j : Json) : Option MessageUnion := do
  let rt ← (j.getField "responseType").bind Json.asString
  if rt = "fragment" then
    let queryId ← (j.getField "queryId").bind Json.asString
    let contentJson ← j.getField "content"
    let fragment ← (contentJson.getField "fragment").bind Json.asString
    pure (.fragmentMsg queryId fragment)
  else none

/-- AnswerEventTypeSchema.parse: responseType is the literal answer-event,
event is the enum of start and stop, and queryId is a string. -/
def AnswerEventTypeSchema (j : Json) : Option MessageUnion := do
  let rt ← (j.getField "responseType").bind Json.asString
  if rt = "answer-event" then
    let eventStr ← (j.getField "event").bind Json.asString
    let event ← if eventStr = "start" then some AnswerEventKind.start
      else if eventStr = "stop" then some AnswerEventKind.stop
      else none
    let queryId ← (j.getField "queryId").bind Json.asString
    pure (.answerEventMsg queryId event)
  else none

/-- MessageUnionSchema.parse: the discriminated union on responseType,
dispatching to the variant schema matching the discriminator literal and
failing when the discriminator is missing, not a string, or unknown. -/
def MessageUnionSchema (j : Json) : Option MessageUnion :=
  match (j.getField "responseType").bind Json.asString with
  | some "documents" => DocumentsMessageSchema j
  | some "faq" => FAQMessageSchema j
  | some "error" => ErrorMessageSchema j
  | some "fragment" => FragmentMessageSchema j
  | some "answer-event" => AnswerEventTypeSchema j
  | _ => none

/-- The four streamId literals of WebSocketMessageSchema. -/
def streamIdValues : List String := ["answer-event", "answer", "resources", "error"]

/-- WebSocketMessageSchema.parse: streamId must be one of the four enum
literals and body must parse as some MessageUnion variant; no relation
between streamId and the body discriminator is required. -/
def WebSocketMessageSchema (j : Json) : Option WebSocketMessage := do
  let sid ← (j.getField "streamId").bind Json.asString
  if streamIdValues.contains sid then
    let bodyJson ← j.getField "body"
    let body ← MessageUnionSchema bodyJson
    pure { streamId := sid, body := body }
  else none

/-- Wire encoding of a SourceDocument: the source key is emitted only when the
field is present. -/
def encodeSourceDocument (d : SourceDocument) : Json :=
  .obj ([("documentId", Json.str d.documentId), ("title", Json.str d.title),
         ("content", Json.str d.content)] ++
    match d.source with
    | some s => [("source", Json.str s)]
    | none => [])

/-- Wire encoding of the answer-event event field. -/
def encodeAnswerEventKind : AnswerEventKind → String
  | .start => "start"
  | .stop => "stop"

/-- Wire encoding of a MessageUnion variant: the JSON object shape that the
corresponding variant schema describes. -/
def encodeMessageUnion : MessageUnion → Json
  | .documentsMsg queryId documents =>
      .obj [("responseType", Json.str "documents"), ("queryId", Json.str queryId),
            ("content", Json.obj [("documents", Json.arr (documents.map encodeSourceDocument))])]
  | .faqMsg queryId question answer =>
      .obj [("responseType", Json.str "faq"), ("queryId", Json.str queryId),
            ("content", Json.obj [("faq", Json.obj [("question", Json.str question),
                                                    ("answer", Json.str answer)])])]
  | .errorMsg message =>
      .obj [("responseType", Json.str "error"),
            ("content", Json.obj [("message", Json.str message)])]
  | .fragmentMsg queryId fragment =>
      .obj [("responseType", Json.str "fragment"), ("queryId", Json.str queryId),
            ("content", Json.obj [("fragment", Json.str fragment)])]
  | .answerEventMsg queryId event =>
      .obj [("responseType", Json.str "answer-event"),
            ("event", Json.str (encodeAnswerEventKind event)),
            ("queryId", Json.str queryId)]

theorem sourceDocument_roundtrip (d : SourceDocument) :
    SourceDocumentSchema (encodeSourceDocument d) = some d := by
  cases d with
  | mk documentId title content source => cases source <;> rfl

theorem sourceDocuments_roundtrip (ds : List SourceDocument) :
    parseDocumentList (ds.map encodeSourceDocument) = some ds := by
  induction ds with
  | nil => rfl
  | cons d rest ih =>
      simp [parseDocumentList, sourceDocument_roundtrip, ih]

/-- C6: encoding any valid MessageUnion variant (documents, faq, error,
fragment, answer-event) to its wire form and decoding it back through the
schema yields a structurally identical value. -/
theorem C6_messageUnion_roundtrip (m : MessageUnion) :
    MessageUnionSchema (encodeMessageUnion m) = some m := by
  cases m with
  | documentsMsg queryId documents =>
      simp [MessageUnionSchema, encodeMessageUnion, DocumentsMessageSchema,
            DocumentsContentSchema, Json.getField, lookupField, Json.asString,
            Json.asArray, sourceDocuments_roundtrip]
  | faqMsg queryId question answer => rfl
  | errorMsg message => rfl
  | fragmentMsg queryId fragment => rfl
  | answerEventMsg queryId event => cases event <;> rfl

/-- Result of one invocation of handleMessage in use-validated-websocket.ts:
the message handler invocations it performed, the resulting lastMessage
state, and the number of validation failure reports sent to the error side
channel (console.error in the catch block). -/
structure HandleMessageResult where
  handlerCalls : List MessageUnion
  lastMessage : Option MessageUnion
  validationReports : Nat
deriving DecidableEq

/-- handleMessage from use-validated-websocket.ts: JSON.parse the raw event
data (a rawData of none models the parse throwing on malformed text), then
WebSocketMessageSchema.parse; on success setLastMessage to the body and
invoke the message handler once with the body; any throw lands in the catch
block, which reports once via console.error and drops the payload, invoking
no handler and leaving lastMessage unchanged. -/
def handleMessage (prevLastMessage : Option MessageUnion) (rawData : Option Json) :
    HandleMessageResult :=
  match rawData with
  | none =>
      { handlerCalls := [], lastMessage := prevLastMessage, validationReports := 1 }
  | some j =>
      match WebSocketMessageSchema j with
      | none =>
          { handlerCalls := [], lastMessage := prevLastMessage, validationReports := 1 }
      | some validatedMessage =>
          { handlerCalls := [validatedMessage.body],
            lastMessage := some validatedMessage.body,
            validationReports := 0 }

/-- C5: every inbound payload is validated against the schema before
dispatch; the handler is invoked at most once, only ever with the body of a
successfully validated payload, and when parsing or validation fails the
handler is not invoked, the failure is reported once on the error side
channel, and the payload is dropped with no state change and no retry. -/
theorem C5_handleMessage_validates_before_dispatch
    (prevLastMessage : Option MessageUnion) (rawData : Option Json) :
    (handleMessage prevLastMessage rawData).handlerCalls.length ≤ 1 ∧
    (∀ m ∈ (handleMessage prevLastMessage rawData).handlerCalls,
      ∃ j w, rawData = some j ∧ WebSocketMessageSchema j = some w ∧ w.body = m) ∧
    (rawData.bind WebSocketMessageSchema = none →
      (handleMessage prevLastMessage rawData).handlerCalls = [] ∧
      (handleMessage prevLastMessage rawData).validationReports = 1 ∧
      (handleMessage prevLastMessage rawData).lastMessage = prevLastMessage) := by
  cases rawData with
  | none => simp [handleMessage]
  | some j =>
      cases h : WebSocketMessageSchema j with
      | none => simp [handleMessage, h]
      | some w =>
          refine ⟨by simp [handleMessage, h], ?_, by simp [handleMessage, h]⟩
          intro m hm
          have hbody : m = w.body := by simpa [handleMessage, h] using hm
          exact ⟨j, w, rfl, h, hbody.symm⟩

/-- Witness for C5 at a concrete invalid payload (a bare JSON string fails
WebSocketMessageSchema validation). -/
theorem C5_handleMessage_witness :
    (handleMessage none (some (Json.str "malformed"))).handlerCalls = [] ∧
    (handleMessage none (some (Json.str "malformed"))).validationReports = 1 ∧
    (handleMessage none (some (Json.str "malformed"))).lastMessage = none :=
  (C5_handleMessage_validates_before_dispatch none (some (Json.str "malformed"))).2.2 rfl

/-- C10: the WebSocketMessage decoder accepts a payload exactly when its
streamId field is a string among the four enum literals and its body field
parses as some MessageUnion variant; streamId is not required to correspond
to the body discriminator, and in particular a payload with streamId
resources and a fragment body decodes successfully. -/
theorem C10_webSocketMessage_decoder (j : Json) :
    ((WebSocketMessageSchema j).isSome =
      (((j.getField "streamId").bind Json.asString).any
          (fun sid => streamIdValues.contains sid) &&
        ((j.getField "body").bind MessageUnionSchema).isSome)) ∧
    WebSocketMessageSchema (Json.obj [("streamId", Json.str "resources"),
        ("body", Json.obj [("responseType", Json.str "fragment"),
                           ("queryId", Json.str "q1"),
                           ("content", Json.obj [("fragment", Json.str "hi")])])])
      = some { streamId := "resources", body := MessageUnion.fragmentMsg "q1" "hi" } := by
  refine ⟨?_, rfl⟩
  cases hs : (j.getField "streamId").bind Json.asString with
  | none => simp [WebSocketMessageSchema, hs]
  | some sid =>
      by_cases hin : sid ∈ streamIdValues
      · cases hb : j.getField "body" with
        | none => simp [WebSocketMessageSchema, hs, hin, hb]
        | some bodyJson =>
            cases hm : MessageUnionSchema bodyJson with
            | none => simp [WebSocketMessageSchema, hs, hin, hb, hm]
            | some body => simp [WebSocketMessageSchema, hs, hin, hb, hm]
      · simp [WebSocketMessageSchema, hs, hin]

/-- ClassifierResult payload returned by the ClassifierTask lambda invocation
(outputPath Payload): the successful flag, the query_class string (none
models a null or absent classification), and the three prepared job
descriptor payloads, kept opaque as JSON. -/
structure ClassifierOutput where
  successful : Bool
  query_class : Option String
  stream_documents_job : Json
  generate_response_job : Json
  retrieve_job : Json

/-- RetrieveResult payload returned by the RetrievalTaskRag lambda
invocation: the successful flag and the two updated job payloads. -/
structure RetrieveOutput where
  successful : Bool
  stream_documents_job : Json
  generate_response_job : Json

/-- Result object returned by the streaming lambda: the successful data
flag consumed by CheckStreamingSuccessFaq and CheckStreamingSuccessRag. -/
structure StreamingOutput where
  successful : Bool

/-- A task invocation performed by the state machine: a LambdaInvoke of the
retrieval lambda or of the streaming lambda, with its input payload. -/
inductive TaskEvent where
  | retrieveInvoke (payload : Json)
  | streamInvoke (payload : Json)

/-- Terminal result of a state machine execution: an sfn.Pass success state
or an sfn.Fail state, identified by its construct id. -/
inductive Outcome where
  | succeeded (stateName : String)
  | failed (stateName : String)
deriving DecidableEq

/-- The ChatStreamingStateMachine definition from the MessagesStack, run from
the output of the ClassifierTask, with the retrieval and streaming lambda
behaviors passed in as functions. BranchOnQueryClass matches query_class
against the exact literals faq and rag; otherwise it enters the
ClassificationFailed sfn.Fail state. The faq branch selects
generate_response_job, invokes the streaming lambda on it and checks its
successful flag; the rag branch selects retrieve_job, invokes the retrieval
lambda, selects generate_response_job from its result, invokes the streaming
lambda on it and checks its successful flag. Returns the task invocations in
order together with the terminal outcome. -/
def runFromClassifier (retrieval : Json → RetrieveOutput)
    (streaming : Json → StreamingOutput) (c : ClassifierOutput) :
    List TaskEvent × Outcome :=
  if c.query_class = some "faq" then
    let job := c.generate_response_job
    let result := streaming job
    let outcome := if result.successful = false then
        Outcome.failed "StreamingFailedFaq"
      else Outcome.succeeded "StreamingSuccessFaq"
    ([TaskEvent.streamInvoke job], outcome)
  else if c.query_class = some "rag" then
    let retrieveJob := c.retrieve_job
    let retrieveResult := retrieval retrieveJob
    let job := retrieveResult.generate_response_job
    let result := streaming job
    let outcome := if result.successful = false then
        Outcome.failed "StreamingFailedRag"
      else Outcome.succeeded "StreamingSuccessRag"
    ([TaskEvent.retrieveInvoke retrieveJob, TaskEvent.streamInvoke job], outcome)
  else
    ([], Outcome.failed "ClassificationFailed")

/-- C1: for every classifier result whose query_class is not the exact
string faq and not the exact string rag (null included), the state machine
reaches the terminal ClassificationFailed failure state and invokes neither
the retrieval task nor any streaming task. -/
theorem C1_classification_fail_closed (retrieval : Json → RetrieveOutput)
    (streaming : Json → StreamingOutput) (c : ClassifierOutput)
    (hfaq : c.query_class ≠ some "faq") (hrag : c.query_class ≠ some "rag") :
    runFromClassifier retrieval streaming c = ([], Outcome.failed "ClassificationFailed") ∧
    (∀ payload, TaskEvent.retrieveInvoke payload ∉ (runFromClassifier retrieval streaming c).1) ∧
    (∀ payload, TaskEvent.streamInvoke payload ∉ (runFromClassifier retrieval streaming c).1) := by
  refine ⟨by simp [runFromClassifier, hfaq, hrag], ?_, ?_⟩ <;>
    intro payload <;> simp [runFromClassifier, hfaq, hrag]

/-- A retrieval lambda behavior used in concrete witnesses. -/
def witnessRetrieval : Json → RetrieveOutput := fun _ =>
  { successful := true, stream_documents_job := Json.null,
    generate_response_job := Json.str "rag-generate-job" }

/-- A streaming lambda behavior used in concrete witnesses. -/
def witnessStreaming (flag : Bool) : Json → StreamingOutput := fun _ =>
  { successful := flag }

/-- A classifier output with a null query_class, as produced on a classifier
validation failure. -/
def nullClassOutput : ClassifierOutput :=
  { successful := false, query_class := none, stream_documents_job := Json.null,
    generate_response_job := Json.null, retrieve_job := Json.null }

/-- Witness for C1 at the concrete null classification. -/
theorem C1_classification_fail_closed_witness :
    nullClassOutput.query_class ≠ some "faq" ∧
    nullClassOutput.query_class ≠ some "rag" ∧
    runFromClassifier witnessRetrieval (witnessStreaming true) nullClassOutput
      = ([], Outcome.failed "ClassificationFailed") :=
  ⟨by simp [nullClassOutput], by simp [nullClassOutput],
    (C1_classification_fail_closed witnessRetrieval (witnessStreaming true)
      nullClassOutput (by simp [nullClassOutput]) (by simp [nullClassOutput])).1⟩

/-- C4: when query_class is faq the machine invokes the streaming task on
the classifier generate_response_job and never the retrieval task; when
query_class is rag it invokes the retrieval task exactly once on
retrieve_job and only then the streaming task, on the generate_response_job
of the retrieval result. -/
theorem C4_branch_task_sequence (retrieval : Json → RetrieveOutput)
    (streaming : Json → StreamingOutput) (c : ClassifierOutput) :
    (c.query_class = some "faq" →
      (runFromClassifier retrieval streaming c).1 =
        [TaskEvent.streamInvoke c.generate_response_job]) ∧
    (c.query_class = some "rag" →
      (runFromClassifier retrieval streaming c).1 =
        [TaskEvent.retrieveInvoke c.retrieve_job,
         TaskEvent.streamInvoke (retrieval c.retrieve_job).generate_response_job]) := by
  constructor
  · intro h
    simp [runFromClassifier, h]
  · intro h
    simp [runFromClassifier, h]

/-- A classifier output classified as faq. -/
def faqClassOutput : ClassifierOutput :=
  { successful := true, query_class := some "faq",
    stream_documents_job := Json.str "faq-resources-job",
    generate_response_job := Json.str "faq-generate-job",
    retrieve_job := Json.null }

/-- A classifier output classified as rag. -/
def ragClassOutput : ClassifierOutput :=
  { successful := true, query_class := some "rag",
    stream_documents_job := Json.null,
    generate_response_job := Json.null,
    retrieve_job := Json.str "rag-retrieve-job" }

/-- Witness for C4 at concrete faq and rag classifications. -/
theorem C4_branch_task_sequence_witness :
    (runFromClassifier witnessRetrieval (witnessStreaming true) faqClassOutput).1
      = [TaskEvent.streamInvoke (Json.str "faq-generate-job")] ∧
    (runFromClassifier witnessRetrieval (witnessStreaming true) ragClassOutput).1
      = [TaskEvent.retrieveInvoke (Json.str "rag-retrieve-job"),
         TaskEvent.streamInvoke (Json.str "rag-generate-job")] :=
  ⟨(C4_branch_task_sequence witnessRetrieval (witnessStreaming true) faqClassOutput).1 rfl,
   (C4_branch_task_sequence witnessRetrieval (witnessStreaming true) ragClassOutput).2 rfl⟩

/-- C3: in every execution that reaches a streaming task, the streaming
result is consumed as the successful data flag: successful = false sends the
machine to a terminal StreamingFailed fail state, and otherwise the branch
completes in a terminal success state. -/
theorem C3_streaming_success_flag (retrieval : Json → RetrieveOutput)
    (streaming : Json → StreamingOutput) (c : ClassifierOutput) (job : Json)
    (hreach : TaskEvent.streamInvoke job ∈ (runFromClassifier retrieval streaming c).1) :
    ((streaming job).successful = false →
      (runFromClassifier retrieval streaming c).2 = Outcome.failed "StreamingFailedFaq" ∨
      (runFromClassifier retrieval streaming c).2 = Outcome.failed "StreamingFailedRag") ∧
    ((streaming job).successful = true →
      (runFromClassifier retrieval streaming c).2 = Outcome.succeeded "StreamingSuccessFaq" ∨
      (runFromClassifier retrieval streaming c).2 = Outcome.succeeded "StreamingSuccessRag") := by
  by_cases hfaq : c.query_class = some "faq"
  · have hjob : job = c.generate_response_job := by
      simpa [runFromClassifier, hfaq] using hreach
    subst hjob
    constructor <;> intro hflag <;> left <;> simp [runFromClassifier, hfaq, hflag]
  · by_cases hrag : c.query_class = some "rag"
    · have hjob : job = (retrieval c.retrieve_job).generate_response_job := by
        simpa [runFromClassifier, hfaq, hrag] using hreach
      subst hjob
      constructor <;> intro hflag <;> right <;>
        simp [runFromClassifier, hfaq, hrag, hflag]
    · simp [runFromClassifier, hfaq, hrag] at hreach

/-- Witness for C3 at a concrete faq execution whose streaming lambda
reports successful = false. -/
theorem C3_streaming_success_flag_witness :
    (runFromClassifier witnessRetrieval (witnessStreaming false) faqClassOutput).2
      = Outcome.failed "StreamingFailedFaq" ∨
    (runFromClassifier witnessRetrieval (witnessStreaming false) faqClassOutput).2
      = Outcome.failed "StreamingFailedRag" :=
  (C3_streaming_success_flag witnessRetrieval (witnessStreaming false) faqClassOutput
    (Json.str "faq-generate-job")
    (by simp [runFromClassifier, faqClassOutput])).1 rfl

/-- A message pushed to the client over the WebSocket channel for a query:
the resources-class message (documents or faq), the answer-event start and
stop markers, an answer fragment, or an error message. -/
inductive PushMessage where
  | resources (queryId : String) (payload : Json)
  | answerStart (queryId : String)
  | fragment (queryId : String) (content : String)
  | answerStop (queryId : String)
  | answerError (queryId : String)

/-- Whether a pushed message is a resources-class message. -/
def PushMessage.isResources : PushMessage → Bool
  | .resources _ _ => true
  | _ => false

/-- Whether a pushed message is the answer-event start marker. -/
def PushMessage.isStart : PushMessage → Bool
  | .answerStart _ => true
  | _ => false

/-- Whether a pushed message is an answer fragment. -/
def PushMessage.isFragment : PushMessage → Bool
  | .fragment _ _ => true
  | _ => false

/-- Whether a pushed message terminates the stream for its query: the
answer-event stop marker or an error message. -/
def PushMessage.isTerminal : PushMessage → Bool
  | .answerStop _ => true
  | .answerError _ => true
  | _ => false

/-- Modelled from the spec: the Streaming Stage lambda (the Python handler in
bundle/streaming invoked by StreamingTaskFaq and StreamingTaskRag; its source
is not among the repository sources here, only its CDK declaration, tests and
the spec). Per the spec it performs its two responsibilities in sequence for
the jobs queryId: (1) push the supporting resources message, (2) push the
answer-event start marker, (3) push one fragment per generated chunk in
emission order, (4) push the answer-event stop marker on normal completion,
or an error message instead when generation fails, and return a result whose
successful flag reflects completion. -/
def streamingStageRun (queryId : String) (resourcesPayload : Json)
    (chunks : List String) (generationOk : Bool) :
    List PushMessage × StreamingOutput :=
  (PushMessage.resources queryId resourcesPayload
     :: PushMessage.answerStart queryId
     :: (chunks.map (PushMessage.fragment queryId) ++
         [if generationOk then PushMessage.answerStop queryId
          else PushMessage.answerError queryId]),
   { successful := generationOk })

/-- No resources-class message occurs anywhere after a start marker in the
given push sequence. -/
def noResourcesAfterStart : List PushMessage → Bool
  | [] => true
  | m :: rest =>
      if m.isStart then !(rest.any PushMessage.isResources) && noResourcesAfterStart rest
      else noResourcesAfterStart rest

theorem noResourcesAfterStart_of_no_start (l : List PushMessage)
    (h : ∀ m ∈ l, m.isStart = false) : noResourcesAfterStart l = true := by
  induction l with
  | nil => rfl
  | cons m rest ih =>
      have hm : m.isStart = false := h m (by simp)
      have hrest : ∀ x ∈ rest, x.isStart = false := fun x hx => h x (by simp [hx])
      simp [noResourcesAfterStart, hm, ih hrest]

theorem pushList_ordered (queryId : String) (resourcesPayload : Json)
    (chunks : List String) (t : PushMessage) (hstart : t.isStart = false)
    (hterm : t.isTerminal = true) (hres : t.isResources = false) :
    ((PushMessage.resources queryId resourcesPayload :: PushMessage.answerStart queryId ::
        (chunks.map (PushMessage.fragment queryId) ++ [t])).countP
        (fun m => m.isStart) = 1) ∧
    ((PushMessage.resources queryId resourcesPayload :: PushMessage.answerStart queryId ::
        (chunks.map (PushMessage.fragment queryId) ++ [t])).countP
        (fun m => m.isTerminal) = 1) ∧
    ((PushMessage.resources queryId resourcesPayload :: PushMessage.answerStart queryId ::
        (chunks.map (PushMessage.fragment queryId) ++ [t])).getLast? = some t) ∧
    (∀ m ∈ chunks.map (PushMessage.fragment queryId) ++ [t],
      m.isFragment = true ∨ m.isTerminal = true) ∧
    noResourcesAfterStart (PushMessage.resources queryId resourcesPayload ::
      PushMessage.answerStart queryId ::
        (chunks.map (PushMessage.fragment queryId) ++ [t])) = true := by
  have htailNoStart : ∀ m ∈ chunks.map (PushMessage.fragment queryId) ++ [t],
      m.isStart = false := by
    intro m hm
    rcases List.mem_append.mp hm with hmem | hmem
    · obtain ⟨chunk, _, hmeq⟩ := List.mem_map.mp hmem
      rw [← hmeq]; rfl
    · rw [List.mem_singleton.mp hmem]; exact hstart
  have hanyRes : (chunks.map (PushMessage.fragment queryId) ++ [t]).any
      PushMessage.isResources = false := by
    rw [List.any_eq_false]
    intro m hm
    rcases List.mem_append.mp hm with hmem | hmem
    · obtain ⟨chunk, _, hmeq⟩ := List.mem_map.mp hmem
      rw [← hmeq]; simp [PushMessage.isResources]
    · rw [List.mem_singleton.mp hmem]; simp [hres]
  refine ⟨?_, ?_, ?_, ?_, ?_⟩
  · have h0 : (chunks.map (PushMessage.fragment queryId) ++ [t]).countP
        (fun m => m.isStart) = 0 := by
      rw [List.countP_eq_zero]
      intro m hm
      simp [htailNoStart m hm]
    simp only [List.countP_cons, h0]
    simp [PushMessage.isStart]
  · have h0 : (chunks.map (PushMessage.fragment queryId)).countP
        (fun m => m.isTerminal) = 0 := by
      rw [List.countP_eq_zero]
      intro m hm
      obtain ⟨chunk, _, hmeq⟩ := List.mem_map.mp hm
      simp [← hmeq, PushMessage.isTerminal]
    simp only [List.countP_cons, List.countP_append, List.countP_nil, h0, hterm]
    simp [PushMessage.isStart, PushMessage.isTerminal, hterm]
  · have hconcat : PushMessage.resources queryId resourcesPayload ::
        PushMessage.answerStart queryId ::
          (chunks.map (PushMessage.fragment queryId) ++ [t]) =
        (PushMessage.resources queryId resourcesPayload ::
          PushMessage.answerStart queryId ::
            chunks.map (PushMessage.fragment queryId)) ++ [t] := by
      simp
    rw [hconcat, List.getLast?_concat]
  · intro m hm
    rcases List.mem_append.mp hm with hmem | hmem
    · obtain ⟨chunk, _, hmeq⟩ := List.mem_map.mp hmem
      left
      rw [← hmeq]; rfl
    · right
      rw [List.mem_singleton.mp hmem]; exact hterm
  · have hrec := noResourcesAfterStart_of_no_start _ htailNoStart
    simp [noResourcesAfterStart, PushMessage.isStart, hanyRes, hrec]

/-- C2: the push sequence emitted for a queryId starts with the
resources-class message followed by the answer-event start marker, then
carries only fragments until a single terminal message (stop or error) in
final position; there is exactly one start marker and exactly one terminal
message, and no resources-class message is ever pushed after the start
marker. -/
theorem C2_push_order (queryId : String) (resourcesPayload : Json)
    (chunks : List String) (generationOk : Bool) :
    ((streamingStageRun queryId resourcesPayload chunks generationOk).1.take 2 =
      [PushMessage.resources queryId resourcesPayload,
       PushMessage.answerStart queryId]) ∧
    ((streamingStageRun queryId resourcesPayload chunks generationOk).1.countP
        (fun m => m.isStart) = 1) ∧
    ((streamingStageRun queryId resourcesPayload chunks generationOk).1.countP
        (fun m => m.isTerminal) = 1) ∧
    (∃ t, (streamingStageRun queryId resourcesPayload chunks generationOk).1.getLast?
        = some t ∧ t.isTerminal = true) ∧
    (∀ m ∈ (streamingStageRun queryId resourcesPayload chunks generationOk).1.drop 2,
      m.isFragment = true ∨ m.isTerminal = true) ∧
    noResourcesAfterStart
      (streamingStageRun queryId resourcesPayload chunks generationOk).1 = true := by
  cases generationOk with
  | false =>
      obtain ⟨h1, h2, h3, h4, h5⟩ := pushList_ordered queryId resourcesPayload chunks
        (PushMessage.answerError queryId) rfl rfl rfl
      exact ⟨rfl, h1, h2, ⟨PushMessage.answerError queryId, h3, rfl⟩, h4, h5⟩
  | true =>
      obtain ⟨h1, h2, h3, h4, h5⟩ := pushList_ordered queryId resourcesPayload chunks
        (PushMessage.answerStop queryId) rfl rfl rfl
      exact ⟨rfl, h1, h2, ⟨PushMessage.answerStop queryId, h3, rfl⟩, h4, h5⟩

/-- Witness for C2 at a concrete streaming run with one chunk: the start
marker is pushed exactly once, and the message after the start marker is a
fragment. -/
theorem C2_push_order_witness :
    ((streamingStageRun "q1" Json.null ["Hello"] true).1.countP
        (fun m => m.isStart) = 1) ∧
    ((PushMessage.fragment "q1" "Hello").isFragment = true ∨
      (PushMessage.fragment "q1" "Hello").isTerminal = true) :=
  ⟨(C2_push_order "q1" Json.null ["Hello"] true).2.1,
   (C2_push_order "q1" Json.null ["Hello"] true).2.2.2.2.1
     (PushMessage.fragment "q1" "Hello") (by simp [streamingStageRun])⟩

/-- QueryError from stores/types.ts: message, userMessage, an optional
untyped details record, and the retryable flag. -/
structure QueryError where
  message : String
  userMessage : String
  details : Option Json
  retryable : Bool

/-- Query from stores/types.ts: the submitted text and queryId, the
direction tag (the type field, outbound or inbound), timestamp, status, the
streamed response content (response.type is the constant stream), the
optional resources payload, the optional error and the optional retry
counter. -/
structure Query where
  query : String
  queryId : String
  direction : String
  timestamp : String
  status : String
  responseContent : Option String
  resources : Option Json
  error : Option QueryError
  retryCount : Option Nat

/-- ChatError from stores/types.ts, as held in the errors list of the
store. -/
structure StoreChatError where
  id : String
  errorKind : String
  message : String
  userMessage : String
  retryable : Bool
  timestamp : String

/-- The state held by useChatStore in chat-store.ts: session fields,
connection and chat state, the current query id, the queries map (modelled
as an association list keyed by queryId), the display order, the errors
list and the draft message. -/
structure ChatStoreState where
  sessionId : Option String
  sessionStatus : String
  connectionState : String
  chatState : String
  currentQueryId : Option String
  queries : List (String × Query)
  queryOrder : List String
  errors : List StoreChatError
  draftMessage : String

/-- First-match lookup of a query by id, as state.queries at queryId. -/
def lookupQuery : List (String × Query) → String → Option Query
  | [], _ => none
  | (k, q) :: rest, queryId => if k = queryId then some q else lookupQuery rest queryId

/-- Keyed update of the queries map: the entry at queryId (when present) is
replaced by the updated query; every other entry is untouched. This is the
shape shared by all the guarded if state.queries at queryId mutations in
chat-store.ts. -/
def updateQueryEntry (queries : List (String × Query)) (queryId : String)
    (f : Query → Query) : List (String × Query) :=
  queries.map fun entry => if entry.1 = queryId then (entry.1, f entry.2) else entry

/-- updateQueryResponse from chat-store.ts: when the query exists, set its
response content to the given string. -/
def updateQueryResponse (s : ChatStoreState) (queryId content : String) : ChatStoreState :=
  { s with queries := (updateQueryEntry s.queries queryId (fun q => { q with responseContent := some content })) }

/-- updateQueryResources from chat-store.ts: when the query exists, set its
resources payload. -/
def updateQueryResources (s : ChatStoreState) (queryId : String)
    (resources : Json) : ChatStoreState :=
  { s with queries := (updateQueryEntry s.queries queryId (fun q => { q with resources := some resources })) }

/-- updateQueryStatus from chat-store.ts: when the query exists, set its
status. -/
def updateQueryStatus (s : ChatStoreState) (queryId status : String) : ChatStoreState :=
  { s with queries := (updateQueryEntry s.queries queryId (fun q => { q with status := status })) }

/-- setQueryError from chat-store.ts: when the query exists, set its error. -/
def setQueryError (s : ChatStoreState) (queryId : String) (e : QueryError) : ChatStoreState :=
  { s with queries := (updateQueryEntry s.queries queryId (fun q => { q with error := some e })) }

/-- clearQueryError from chat-store.ts: when the query exists, clear its
error. -/
def clearQueryError (s : ChatStoreState) (queryId : String) : ChatStoreState :=
  { s with queries := (updateQueryEntry s.queries queryId (fun q => { q with error := none })) }

/-- incrementQueryRetry from chat-store.ts: when the query exists, increment
its retry counter, treating an absent counter as zero. -/
def incrementQueryRetry (s : ChatStoreState) (queryId : String) : ChatStoreState :=
  { s with queries := (updateQueryEntry s.queries queryId (fun q => { q with retryCount := some ((q.retryCount.getD 0) + 1) })) }

/-- The six query-keyed update operations of the chat store, with their
arguments. -/
inductive QueryOp where
  | updateResponse (queryId content : String)
  | updateResources (queryId : String) (resources : Json)
  | updateStatus (queryId status : String)
  | setError (queryId : String) (e : QueryError)
  | clearError (queryId : String)
  | incrementRetry (queryId : String)

/-- The queryId an operation is keyed by. -/
def QueryOp.queryId : QueryOp → String
  | .updateResponse queryId _ => queryId
  | .updateResources queryId _ => queryId
  | .updateStatus queryId _ => queryId
  | .setError queryId _ => queryId
  | .clearError queryId => queryId
  | .incrementRetry queryId => queryId

/-- Dispatch of a query-keyed operation to its chat-store implementation. -/
def applyQueryOp (s : ChatStoreState) : QueryOp → ChatStoreState
  | .updateResponse queryId content => updateQueryResponse s queryId content
  | .updateResources queryId resources => updateQueryResources s queryId resources
  | .updateStatus queryId status => updateQueryStatus s queryId status
  | .setError queryId e => setQueryError s queryId e
  | .clearError queryId => clearQueryError s queryId
  | .incrementRetry queryId => incrementQueryRetry s queryId

theorem updateQueryEntry_of_absent (queries : List (String × Query))
    (queryId : String) (f : Query → Query)
    (h : lookupQuery queries queryId = none) :
    updateQueryEntry queries queryId f = queries := by
  induction queries with
  | nil => rfl
  | cons entry rest ih =>
      by_cases hk : entry.1 = queryId
      · simp [lookupQuery, hk] at h
      · have hrest : lookupQuery rest queryId = none := by
          simpa [lookupQuery, hk] using h
        simp [updateQueryEntry, hk] at ih ⊢
        exact ih hrest

theorem lookupQuery_updateQueryEntry_ne (queries : List (String × Query))
    (queryId : String) (f : Query → Query) (k : String) (h : k ≠ queryId) :
    lookupQuery (updateQueryEntry queries queryId f) k = lookupQuery queries k := by
  induction queries with
  | nil => rfl
  | cons entry rest ih =>
      obtain ⟨a, q⟩ := entry
      simp only [updateQueryEntry, List.map_cons] at ih ⊢
      by_cases hk : a = queryId
      · have hne : ¬(a = k) := fun he => h (he ▸ hk)
        rw [if_pos hk]
        simp only [lookupQuery]
        rw [if_neg hne, if_neg hne]
        exact ih
      · rw [if_neg hk]
        simp only [lookupQuery]
        by_cases he : a = k
        · rw [if_pos he, if_pos he]
        · rw [if_neg he, if_neg he]
          exact ih

/-- C9: every query-keyed store operation is a no-op when the queryId has no
entry in the queries map, and otherwise modifies at most that entry: every
other query, the queryOrder list and every remaining store field are left
unchanged. -/
theorem C9_store_ops_frame (s : ChatStoreState) (op : QueryOp) :
    (lookupQuery s.queries op.queryId = none → applyQueryOp s op = s) ∧
    (∀ k, k ≠ op.queryId →
      lookupQuery (applyQueryOp s op).queries k = lookupQuery s.queries k) ∧
    (applyQueryOp s op).queryOrder = s.queryOrder ∧
    (applyQueryOp s op).sessionId = s.sessionId ∧
    (applyQueryOp s op).sessionStatus = s.sessionStatus ∧
    (applyQueryOp s op).connectionState = s.connectionState ∧
    (applyQueryOp s op).chatState = s.chatState ∧
    (applyQueryOp s op).currentQueryId = s.currentQueryId ∧
    (applyQueryOp s op).errors = s.errors ∧
    (applyQueryOp s op).draftMessage = s.draftMessage := by
  cases op <;>
    refine ⟨fun h => ?_, fun k hk => ?_, rfl, rfl, rfl, rfl, rfl, rfl, rfl, rfl⟩ <;>
    first
      | (simp only [applyQueryOp, QueryOp.queryId] at h ⊢
         simp [updateQueryResponse, updateQueryResources, updateQueryStatus,
               setQueryError, clearQueryError, incrementQueryRetry,
               updateQueryEntry_of_absent _ _ _ h])
      | (simp only [applyQueryOp, QueryOp.queryId] at hk ⊢
         simp [updateQueryResponse, updateQueryResources, updateQueryStatus,
               setQueryError, clearQueryError, incrementQueryRetry,
               lookupQuery_updateQueryEntry_ne _ _ _ _ hk])

/-- A concrete store holding a single query q1 with accumulated response
content. -/
def exampleQuery : Query :=
  { query := "What is the standard deduction?", queryId := "q1",
    direction := "outbound", timestamp := "t0", status := "streaming",
    responseContent := some "Hello ", resources := none, error := none,
    retryCount := none }

/-- A concrete chat store state holding only the query q1. -/
def exampleStore : ChatStoreState :=
  { sessionId := some "session-1", sessionStatus := "ready",
    connectionState := "open", chatState := "streaming",
    currentQueryId := some "q1", queries := [("q1", exampleQuery)],
    queryOrder := ["q1"], errors := [], draftMessage := "" }

/-- Witness for C9: an update keyed by an absent queryId leaves the concrete
store unchanged, and an update keyed by q1 leaves the lookup of another key
unchanged. -/
theorem C9_store_ops_frame_witness :
    (applyQueryOp exampleStore (QueryOp.updateStatus "missing" "completed")
      = exampleStore) ∧
    (lookupQuery (applyQueryOp exampleStore
        (QueryOp.updateStatus "q1" "completed")).queries "q2"
      = lookupQuery exampleStore.queries "q2") :=
  ⟨(C9_store_ops_frame exampleStore (QueryOp.updateStatus "missing" "completed")).1 rfl,
   (C9_store_ops_frame exampleStore (QueryOp.updateStatus "q1" "completed")).2.1 "q2"
     (by decide)⟩

/-- The appendQueryResponse store method as resolved on the store object
built by chat-store.ts: the ChatStore interface declares
appendQueryResponse(queryId, fragment) and the message handler reads it off
the store, but the object literal passed to create() in chat-store.ts
defines no such method, so the property access yields undefined; this is
modelled as none. -/
def appendQueryResponseImpl : Option (ChatStoreState → String → String → ChatStoreState) :=
  none

/-- Modelled from the spec: the intended appendQueryResponse behavior (the
implementation is absent from chat-store.ts; this definition follows the
ChatStore interface declaration, the spec sentence that the streaming
consumer reduces fragments by append, and the hook test, which expects each
fragment to be appended to the accumulated response content of the query). -/
def appendQueryResponseExpected (s : ChatStoreState) (queryId fragment : String) :
    ChatStoreState :=
  { s with queries := (updateQueryEntry s.queries queryId (fun q => { q with responseContent := some ((q.responseContent.getD "") ++ fragment) })) }

/-- The fragment case of messageHandler in use-websocket-chat.ts: it calls
state.appendQueryResponse(message.queryId, message.content.fragment);
calling an undefined property throws a TypeError, which the surrounding try
catch consumes, reporting one processing error through handleError and
leaving the store untouched. Returns the resulting store and the list of
user-facing error reports produced. -/
def processFragmentMessage (s : ChatStoreState) (queryId fragment : String) :
    ChatStoreState × List String :=
  match appendQueryResponseImpl with
  | some impl => (impl s queryId fragment, [])
  | none => (s, ["An error occurred while processing a response from the server."])

/-- C7: at the failing input (a fragment for the existing query q1 whose
accumulated content is the string Hello followed by a space), the client
does not append the fragment: the store is returned unchanged with one
processing-error report, while the declared and tested append behavior
would extend the accumulated content with the fragment. -/
theorem C7_fragment_append_code_bug :
    (processFragmentMessage exampleStore "q1" "world").1 = exampleStore ∧
    (processFragmentMessage exampleStore "q1" "world").2.length = 1 ∧
    ((lookupQuery (processFragmentMessage exampleStore "q1" "world").1.queries "q1").map
        Query.responseContent) = some (some "Hello ") ∧
    ((lookupQuery (appendQueryResponseExpected exampleStore "q1" "world").queries "q1").map
        Query.responseContent) = some (some "Hello world") := by
  refine ⟨rfl, rfl, rfl, ?_⟩
  rfl

/-- Client connection and session state held by useValidatedWebSocket:
the connectionState string and the current sessionId. -/
structure WsClientState where
  connectionState : String
  sessionId : Option String

/-- handleClose from use-validated-websocket.ts: on channel close the hook
sets connectionState to closed and clears the sessionId (the source comment
reads: Session ID invalid on close). -/
def handleClose (s : WsClientState) : WsClientState :=
  { s with connectionState := "closed", sessionId := none }

/-- reconnect from use-validated-websocket.ts: awaits createSessionMutation,
which has the backend mint a fresh session, and stores the newly created
session id (the source comment reads: Create a new session; the last
session was cleared on disconnect). The fresh id returned by the backend is
passed in as newSessionId. -/
def reconnect (s : WsClientState) (newSessionId : String) : WsClientState :=
  { s with sessionId := some newSessionId }

/-- websocketUrl from use-validated-websocket.ts: the WebSocket is built
from the urlBase and the current sessionId as a query parameter, or the
empty string when there is no session. -/
def websocketUrl (urlBase : String) (sessionId : Option String) : String :=
  match sessionId with
  | some sid => urlBase ++ "?sessionId=" ++ sid
  | none => ""

/-- Counterexample to C8 as stated: with session-A attached before the
disconnect, closing and reconnecting (the backend minting the fresh session
session-B) leaves the client attached to session-B, not to session-A. -/
theorem C8_reconnect_counterexample :
    (reconnect (handleClose { connectionState := "open", sessionId := some "session-A" })
        "session-B").sessionId ≠ some "session-A" := by
  decide

/-- C8 amended: on the client a session does not outlive its connection:
closing the channel clears the sessionId, and reconnect attaches the new
connection to the newly created sessionId returned by the backend, so the
rebuilt WebSocket URL carries the new id. -/
theorem C8_reconnect_new_session (s : WsClientState) (newSessionId urlBase : String) :
    (handleClose s).sessionId = none ∧
    (reconnect (handleClose s) newSessionId).sessionId = some newSessionId ∧
    websocketUrl urlBase (reconnect (handleClose s) newSessionId).sessionId
      = urlBase ++ "?sessionId=" ++ newSessionId := by
  exact ⟨rfl, rfl, rfl⟩

end WisconsinDor
